import Mathlib

/-!
Shallow embedding of the classification-and-indexing pipeline of
`tools/build_state_db.py`: tag-based place-type and POI-category
classification, display-name composition, per-entity record extraction
(node and way handlers), and the database/metadata construction.

Tag mappings are modelled as `String → Option String` (`none` = key
absent).  Python truthiness of `tags.get(k)` (both `None` and `""` are
falsy) is modelled by `truthy`.  Coordinates are rationals.  Potential
per-entity faults from the external OSM-object accessors are modelled
with `Except String`; the catch-all of the way handler is the
`wayStep` match, while the node handler has no such guard.
-/

namespace BuildStateDB

/-- A tag mapping: `none` models an absent key, `some v` a present key
(possibly with empty value), mirroring Python `dict.get`. -/
abbrev Tags := String → Option String

/-- Python truthiness of `tags.get(k)`: `None` and `""` are falsy. -/
def truthy : Option String → Bool
  | none => false
  | some s => !s.isEmpty

/-- Python `x in (v1, ..., vn)` applied to an optional string:
`None in tuple` is `False`. -/
def optIn (o : Option String) (l : List String) : Bool :=
  match o with
  | none => false
  | some s => l.contains s

/-- The enumerated `place` values of rule 1 of `_get_place_type`. -/
def enumPlaces : List String :=
  ["city", "town", "village", "hamlet", "suburb", "neighbourhood", "locality"]

/-- The `building` sub-rule of `_get_place_type` (rule 5 body): when the
`building` tag is truthy, return its value with the `building_` prefix
unless the value is the literal `yes` (then plain `building`); when the
tag is absent or falsy, return `address`. -/
def buildingType (o : Option String) : String :=
  match o with
  | some b => if !b.isEmpty then (if b == "yes" then "building" else "building_" ++ b) else "address"
  | none => "address"

/-- The `landuse` sub-rule of `_get_place_type` (rule 10 body): return the
`landuse` value when truthy, else no place type. -/
def landuseType (o : Option String) : Option String :=
  match o with
  | some l => if !l.isEmpty then some l else none
  | none => none

/-- `PlaceHandler._get_place_type`: the priority-ordered place-type rules. -/
def get_place_type (tags : Tags) : Option String :=
  if optIn (tags "place") enumPlaces then tags "place"
  else if truthy (tags "amenity") then tags "amenity"
  else if truthy (tags "shop") then (tags "shop").map (fun s => "shop_" ++ s)
  else if truthy (tags "tourism") then tags "tourism"
  else if truthy (tags "addr:street") && truthy (tags "addr:housenumber") then
    some (buildingType (tags "building"))
  else if truthy (tags "leisure") then tags "leisure"
  else if truthy (tags "office") then (tags "office").map (fun s => "office_" ++ s)
  else if truthy (tags "aeroway") then tags "aeroway"
  else if truthy (tags "railway") then tags "railway"
  else if truthy (tags "name") then landuseType (tags "landuse")
  else none

/-- Turns an optional tag value into the (possibly empty) list of display
components it contributes: `if x: parts.append(x)`. -/
def optPart : Option String → List String
  | none => []
  | some s => if s.isEmpty then [] else [s]

/-- The street block of `_build_display_name`:
`if street: if housenumber: append(f"hn st") elif not name: append(street)`.
Note the `"<housenumber> <street>"` component is appended even when a name
is present; only the bare-street branch is gated on the name being absent. -/
def streetParts (name street housenumber : Option String) : List String :=
  if truthy street then
    if truthy housenumber then [housenumber.getD "" ++ " " ++ street.getD ""]
    else if !truthy name then [street.getD ""]
    else []
  else []

/-- `PlaceHandler._build_display_name`: comma-joined non-empty components,
falling back to the region name when every component is empty. -/
def build_display_name (region : String) (tags : Tags) (name : Option String) : String :=
  let parts :=
    (if truthy name then [name.getD ""] else [])
    ++ streetParts name (tags "addr:street") (tags "addr:housenumber")
    ++ optPart (tags "addr:city")
    ++ optPart (tags "addr:state")
    ++ optPart (tags "addr:country")
    ++ optPart (tags "addr:postcode")
  if parts.isEmpty then region else String.intercalate ", " parts

/-- One row of the `places` batch, mirroring the dict built in
`PlaceHandler._extract_place`. -/
structure Place where
  osm_id : Int
  osm_type : String
  lat : ℚ
  lon : ℚ
  name : String
  display_name : String
  type : String
  street : String
  housenumber : String
  city : String
  postcode : String
  state : String
  country : String
deriving Repr, DecidableEq

/-- Python f-string formatting of an optional value: `None` renders as the
string `"None"`, a string renders as itself. -/
def pyFmt : Option String → String
  | none => "None"
  | some s => s

/-- Python `str.strip()`: drop leading and trailing whitespace. -/
def pyStrip (s : String) : String :=
  String.mk (((s.data.dropWhile Char.isWhitespace).reverse.dropWhile
    Char.isWhitespace).reverse)

/-- Python `x or d` on an optional string: the value when truthy, else `d`. -/
def orTruthy (o : Option String) (d : String) : String :=
  match o with
  | none => d
  | some s => if s.isEmpty then d else s

/-- Python `tags.get(k, d)`: the value whenever the key is present (even with
empty value), else the default. -/
def tagGet (tags : Tags) (k : String) (d : String) : String :=
  (tags k).getD d

/-- `PlaceHandler._extract_place`: emits a Place when `name` or `addr:street`
is truthy and a place type resolves. -/
def extract_place (region : String) (isNode : Bool) (osm_id : Int) (tags : Tags)
    (lat lon : ℚ) : Option Place :=
  let name := tags "name"
  let addr_street := tags "addr:street"
  let addr_housenumber := tags "addr:housenumber"
  if !truthy name && !truthy addr_street then none
  else
    match get_place_type tags with
    | none => none
    | some pt =>
      if pt.isEmpty then none
      else
        some {
          osm_id := osm_id
          osm_type := if isNode then "node" else "way"
          lat := lat
          lon := lon
          name := orTruthy name (pyStrip (pyFmt addr_housenumber ++ " " ++ pyFmt addr_street))
          display_name := build_display_name region tags name
          type := pt
          street := orTruthy addr_street ""
          housenumber := orTruthy addr_housenumber ""
          city := tagGet tags "addr:city" ""
          postcode := tagGet tags "addr:postcode" ""
          state := tagGet tags "addr:state" region
          country := tagGet tags "addr:country" "" }

/-- One row of the `pois` batch, mirroring the dict built in
`PlaceHandler._extract_poi`. -/
structure Poi where
  osm_id : Int
  osm_type : String
  lat : ℚ
  lon : ℚ
  name : String
  category : String
  address : String
  phone : String
  website : String
  opening_hours : String
deriving Repr, DecidableEq

/-- The `POI_CATEGORIES` table, in source declaration order, as
(category, tag key, tag value) triples. -/
def POI_CATEGORIES : List (String × String × String) := [
  ("HOSPITAL", "amenity", "hospital"),
  ("PHARMACY", "amenity", "pharmacy"),
  ("DENTIST", "amenity", "dentist"),
  ("DOCTOR", "amenity", "doctors"),
  ("CLINIC", "amenity", "clinic"),
  ("VETERINARIAN", "amenity", "veterinary"),
  ("FIRE_STATION", "amenity", "fire_station"),
  ("POLICE_STATION", "amenity", "police"),
  ("AIRPORT", "aeroway", "aerodrome"),
  ("HELIPORT", "aeroway", "helipad"),
  ("RAILWAY_STATION", "railway", "station"),
  ("FERRY_TERMINAL", "amenity", "ferry_terminal"),
  ("PARKING", "amenity", "parking"),
  ("GAS_STATION", "amenity", "fuel"),
  ("CAR_WASH", "amenity", "car_wash"),
  ("BANK", "amenity", "bank"),
  ("ATM", "amenity", "atm"),
  ("SCHOOL", "amenity", "school"),
  ("RESTAURANT", "amenity", "restaurant"),
  ("HOTEL", "tourism", "hotel"),
  ("CAFE", "amenity", "cafe"),
  ("FAST_FOOD", "amenity", "fast_food"),
  ("BAR", "amenity", "bar"),
  ("PUB", "amenity", "pub"),
  ("SUPERMARKET", "shop", "supermarket"),
  ("CONVENIENCE_STORE", "shop", "convenience"),
  ("SHOPPING_MALL", "shop", "mall"),
  ("HARDWARE_STORE", "shop", "hardware"),
  ("LAUNDRY", "shop", "laundry"),
  ("HAIR_SALON", "shop", "hairdresser"),
  ("CINEMA", "amenity", "cinema"),
  ("GYM", "leisure", "fitness_centre"),
  ("CEMETERY", "landuse", "cemetery"),
  ("GRAVE_YARD", "amenity", "grave_yard"),
  ("SURVEILLANCE", "man_made", "surveillance"),
  ("EMBASSY", "amenity", "embassy"),
  ("GOVERNMENT", "office", "government"),
  ("PRISON", "amenity", "prison"),
  ("COMM_TOWER", "man_made", "tower"),
  ("CELL_TOWER", "man_made", "mast"),
  ("POWER_STATION", "power", "plant"),
  ("WATER_TOWER", "man_made", "water_tower"),
  ("POST_OFFICE", "amenity", "post_office"),
  ("PLACE_OF_WORSHIP", "amenity", "place_of_worship"),
  ("LIBRARY", "amenity", "library")]

/-- `POI_TAG_TO_CATEGORY`: the inverted table, mapping each (tag key, tag
value) pair to its category, insertion-ordered (the tag pairs are pairwise
distinct, so the Python dict comprehension keeps every entry in
declaration order). -/
def POI_TAG_TO_CATEGORY : List ((String × String) × String) :=
  POI_CATEGORIES.map (fun x => ((x.2.1, x.2.2), x.1))

/-- The category-scan loop of `_extract_poi`: first table pair whose tag is
present with exactly that value (`tags.get(osm_key) == osm_value`; an
absent tag compares unequal to every table value). -/
def poiCategory (tags : Tags) : Option String :=
  (POI_TAG_TO_CATEGORY.find? (fun p => tags p.1.1 == some p.1.2)).map (fun p => p.2)

/-- Python nested `tags.get` with a fallback key: value of `k1` whenever present,
else value of `k2` whenever present, else empty. -/
def pyGet2 (tags : Tags) (k1 k2 : String) : String :=
  match tags k1 with
  | some v => v
  | none => (tags k2).getD ""

/-- `PlaceHandler._extract_poi`: emits a POI when a Category Table pair
matches. -/
def extract_poi (isNode : Bool) (osm_id : Int) (tags : Tags) (lat lon : ℚ) :
    Option Poi :=
  match poiCategory tags with
  | none => none
  | some cat =>
    let addr_parts :=
      optPart (tags "addr:housenumber") ++ optPart (tags "addr:street")
      ++ optPart (tags "addr:city") ++ optPart (tags "addr:postcode")
    some {
      osm_id := osm_id
      osm_type := if isNode then "node" else "way"
      lat := lat
      lon := lon
      name := (tags "name").getD ""
      category := cat
      address := String.intercalate ", " addr_parts
      phone := pyGet2 tags "phone" "contact:phone"
      website := pyGet2 tags "website" "contact:website"
      opening_hours := (tags "opening_hours").getD "" }

/-- The mutable state of a `PlaceHandler`. -/
structure HState where
  places : List Place
  pois : List Poi
  place_count : Nat
  poi_count : Nat
  region_name : String
deriving Repr, DecidableEq

/-- `self.places.append(place); self.place_count += 1`. -/
def addPlace (st : HState) (p : Place) : HState :=
  { st with places := st.places ++ [p], place_count := st.place_count + 1 }

/-- `self.pois.append(poi); self.poi_count += 1`. -/
def addPoi (st : HState) (q : Poi) : HState :=
  { st with pois := st.pois ++ [q], poi_count := st.poi_count + 1 }

/-- An incoming node: `loc = none` models an invalid location
(`n.location.valid()` false); the tag accessor may fault (the external
decoder may raise while materialising `dict(n.tags)`). -/
structure NodeIn where
  osm_id : Int
  loc : Option (ℚ × ℚ)
  tags : Except String Tags

/-- `PlaceHandler.node`: skips invalid locations, then extracts.  There is
no exception handler in this method, so a per-node fault propagates. -/
def nodeStep (st : HState) (n : NodeIn) : Except String HState :=
  match n.loc with
  | none => .ok st
  | some c =>
    match n.tags with
    | .error e => .error e
    | .ok t =>
      let st1 := match extract_place st.region_name true n.osm_id t c.1 c.2 with
        | some p => addPlace st p
        | none => st
      let st2 := match extract_poi true n.osm_id t c.1 c.2 with
        | some q => addPoi st1 q
        | none => st1
      .ok st2

/-- An incoming way: each constituent node-reference access may fault, and
a resolved reference carries an optional (possibly invalid) location; the
tag accessor may fault as well. -/
structure WayIn where
  osm_id : Int
  nodes : List (Except String (Option (ℚ × ℚ)))
  tags : Except String Tags

/-- The vertex-collection loop of `PlaceHandler.way`: walks the node
references in order, skipping invalid locations; the first faulting
reference access raises out of the loop. -/
def collectLocs : List (Except String (Option (ℚ × ℚ))) → Except String (List (ℚ × ℚ))
  | [] => .ok []
  | x :: xs =>
    match x with
    | .error e => .error e
    | .ok r =>
      match collectLocs xs with
      | .error e => .error e
      | .ok rest =>
        match r with
        | some c => .ok (c :: rest)
        | none => .ok rest

/-- The extraction tail of `PlaceHandler.way` once a coordinate is fixed:
appends the Place and/or POI (both with `osm_type` overwritten to
the string `way`). -/
def processWayAt (st : HState) (osm_id : Int) (t : Tags) (lat lon : ℚ) : HState :=
  let st1 := match extract_place st.region_name false osm_id t lat lon with
    | some p => addPlace st { p with osm_type := "way" }
    | none => st
  match extract_poi false osm_id t lat lon with
  | some q => addPoi st1 { q with osm_type := "way" }
  | none => st1

/-- The body of `PlaceHandler.way` inside the `try`: collect valid vertex
locations, return unchanged when none, else average and extract. -/
def wayBody (st : HState) (w : WayIn) : Except String HState :=
  match collectLocs w.nodes with
  | .error e => .error e
  | .ok locs =>
    if locs.isEmpty then .ok st
    else
      match w.tags with
      | .error e => .error e
      | .ok t =>
        let lat := (locs.map Prod.fst).sum / (locs.length : ℚ)
        let lon := (locs.map Prod.snd).sum / (locs.length : ℚ)
        .ok (processWayAt st w.osm_id t lat lon)

/-- `PlaceHandler.way`: the whole body runs under
`try: ... except Exception: pass`, so any fault skips the way and leaves
the handler state unchanged. -/
def wayStep (st : HState) (w : WayIn) : HState :=
  match wayBody st w with
  | .ok s => s
  | .error _ => st

/-- The valid vertex locations of a way, in order, assuming no reference
faults (faulting references contribute nothing here; `collectLocs` is the
faulting computation). -/
def validLocs (nodes : List (Except String (Option (ℚ × ℚ)))) : List (ℚ × ℚ) :=
  nodes.filterMap (fun x => match x with
    | .ok (some c) => some c
    | .ok none => none
    | .error _ => none)

/-- The persisted store built by `create_database`: the two relations with
their storage-assigned identifiers, the FTS projection, the R-tree rows
(degenerate boxes), and the metadata key/value rows in insertion order. -/
structure Database where
  places : List (Nat × Place)
  places_fts : List (Nat × String × String × String × String × String)
  pois : List (Nat × Poi)
  pois_rtree : List (Nat × ℚ × ℚ × ℚ × ℚ)
  metadata : List (String × String)

/-- `create_database`: bulk load with identifiers assigned monotonically
from 1, FTS and R-tree population, and the five metadata rows.  The
creation timestamp is passed in (the source reads the wall clock). -/
def create_database (places : List Place) (pois : List Poi)
    (region created : String) : Database :=
  let prows := places.enum.map (fun x => (x.1 + 1, x.2))
  let qrows := pois.enum.map (fun x => (x.1 + 1, x.2))
  { places := prows
    places_fts := prows.map (fun x =>
      (x.1, x.2.name, x.2.display_name, x.2.street, x.2.city, x.2.postcode))
    pois := qrows
    pois_rtree := qrows.map (fun x => (x.1, x.2.lat, x.2.lat, x.2.lon, x.2.lon))
    metadata := [
      ("created", created),
      ("place_count", toString places.length),
      ("poi_count", toString pois.length),
      ("region", region),
      ("schema_version", "2")] }

/-- Lookup of a metadata value by key (keys are unique: `key` is the
primary key of the `metadata` table). -/
def metaValue (db : Database) (k : String) : Option String :=
  (db.metadata.find? (fun x => x.1 == k)).map (fun x => x.2)

/-- Overwrite one key of a tag mapping with a value. -/
def setTag (m : Tags) (k v : String) : Tags :=
  fun q => if q = k then some v else m q

/-- Remove one key from a tag mapping. -/
def delTag (m : Tags) (k : String) : Tags :=
  fun q => if q = k then none else m q

/-- Normalisation collapsing present-with-empty-value to absent. -/
def normTag (m : Tags) : Tags :=
  fun q =>
    match m q with
    | some s => if s.isEmpty then none else some s
    | none => none

/-- Modelled from the claim wording of C1 (for comparison with the code):
comma-joined non-empty components, with the street component appearing only
when the name is absent, and no fallback. -/
def claimDisplayC1 (tags : Tags) (name : Option String) : String :=
  let comps :=
    (if truthy name then [name.getD ""]
     else if truthy (tags "addr:street") then
       (if truthy (tags "addr:housenumber") then
          [(tags "addr:housenumber").getD "" ++ " " ++ (tags "addr:street").getD ""]
        else [(tags "addr:street").getD ""])
     else [])
    ++ optPart (tags "addr:city")
    ++ optPart (tags "addr:state")
    ++ optPart (tags "addr:country")
    ++ optPart (tags "addr:postcode")
  String.intercalate ", " comps

/-- Modelled from the amended wording of C1: flat guarded component list —
name; then `"<housenumber> <street>"` whenever street and housenumber are
both truthy (even when a name is present), bare street only when the name
is absent; then city, state, country, postcode; region label when every
component is empty. -/
def displaySpecAmended (region : String) (tags : Tags) (name : Option String) : String :=
  let street := tags "addr:street"
  let hn := tags "addr:housenumber"
  let streetComp :=
    if truthy street && truthy hn then [hn.getD "" ++ " " ++ street.getD ""]
    else if truthy street && !truthy name then [street.getD ""]
    else []
  let comps :=
    (if truthy name then [name.getD ""] else [])
    ++ streetComp
    ++ optPart (tags "addr:city")
    ++ optPart (tags "addr:state")
    ++ optPart (tags "addr:country")
    ++ optPart (tags "addr:postcode")
  if comps.isEmpty then region else String.intercalate ", " comps

/-- Fixture: name, street and housenumber all present. -/
def tC1 : Tags := fun k =>
  if k = "name" then some "NameX"
  else if k = "addr:street" then some "Main St"
  else if k = "addr:housenumber" then some "10"
  else none

/-- Fixture: street and amenity present, no name, no housenumber. -/
def tC2 : Tags := fun k =>
  if k = "addr:street" then some "Main St"
  else if k = "amenity" then some "cafe"
  else none

/-- Fixture: an empty handler state. -/
def st0 : HState :=
  { places := [], pois := [], place_count := 0, poi_count := 0, region_name := "Virginia" }

/-- Fixture: a node at a valid location whose tag accessor faults. -/
def nBadC3 : NodeIn :=
  { osm_id := 1, loc := some (1, 2), tags := .error "malformed tags" }

/-- Fixture: a way whose first node-reference access faults. -/
def wBadC3 : WayIn :=
  { osm_id := 2, nodes := [.error "bad ref"], tags := .ok tC2 }

/-- Fixture: street and housenumber present, `building` present with empty
value. -/
def tC4 : Tags := fun k =>
  if k = "addr:street" then some "Main St"
  else if k = "addr:housenumber" then some "10"
  else if k = "building" then some ""
  else none

/-- Fixture: street and housenumber present, `building=yes`. -/
def tC4w : Tags := fun k =>
  if k = "addr:street" then some "Main St"
  else if k = "addr:housenumber" then some "10"
  else if k = "building" then some "yes"
  else none

/-- Fixture: amenity only — no `name`, no `addr:street`. -/
def tC5w : Tags := fun k =>
  if k = "amenity" then some "cafe" else none

/-- Fixture: `amenity=pharmacy` plus unrelated tags. -/
def tC6a : Tags := fun k =>
  if k = "amenity" then some "pharmacy"
  else if k = "name" then some "Corner Chemist"
  else if k = "shop" then some "bakery"
  else none

/-- Fixture: tags matching no Category Table pair. -/
def tC6b : Tags := fun k =>
  if k = "shop" then some "bakery"
  else if k = "name" then some "Bread Box"
  else none

/-- Fixture: way tags carrying a name and an amenity. -/
def tC7 : Tags := fun k =>
  if k = "name" then some "Plaza"
  else if k = "amenity" then some "cafe"
  else none

/-- Fixture: a way whose only vertex has an invalid location. -/
def wEmptyC7 : WayIn :=
  { osm_id := 3, nodes := [.ok none], tags := .ok tC7 }

/-- Fixture: a way with two valid vertices and one invalid vertex. -/
def wGoodC7 : WayIn :=
  { osm_id := 4
    nodes := [.ok (some (1, 2)), .ok none, .ok (some (3, 4))]
    tags := .ok tC7 }

/-- Fixture: name, amenity and `addr:state` present. -/
def tC10 : Tags := fun k =>
  if k = "name" then some "X"
  else if k = "amenity" then some "cafe"
  else if k = "addr:state" then some "VA"
  else none

/-- The Place that `extract_place` produces on `tC10`. -/
def pC10 : Place :=
  { osm_id := 1, osm_type := "node", lat := 0, lon := 0, name := "X"
    display_name := "X, VA", type := "cafe", street := "", housenumber := ""
    city := "", postcode := "", state := "VA", country := "" }

theorem mem_enumPlaces_not_empty (s : String) (h : enumPlaces.contains s = true) :
    s.isEmpty = false := by
  have h2 : s ∈ enumPlaces := by simpa using h
  fin_cases h2 <;> decide

theorem truthy_norm (m : Tags) (q : String) : truthy (normTag m q) = truthy (m q) := by
  unfold normTag truthy
  cases m q with
  | none => rfl
  | some s => by_cases h : s.isEmpty <;> simp [h]

theorem optIn_enum_norm (m : Tags) (q : String) :
    optIn (normTag m q) enumPlaces = optIn (m q) enumPlaces := by
  unfold normTag optIn
  cases m q with
  | none => rfl
  | some s =>
    by_cases h : s.isEmpty
    · rw [String.isEmpty_iff] at h
      subst h
      decide
    · simp [h]

theorem val_norm (m : Tags) (q : String) (h : truthy (m q) = true) :
    normTag m q = m q := by
  unfold normTag
  cases hm : m q with
  | none => rfl
  | some s =>
    rw [hm] at h
    unfold truthy at h
    simp at h
    simp [h]

theorem buildingType_norm (m : Tags) (q : String) :
    buildingType (normTag m q) = buildingType (m q) := by
  unfold normTag buildingType
  cases m q with
  | none => rfl
  | some s => by_cases h : s.isEmpty <;> simp [h]

theorem landuseType_norm (m : Tags) (q : String) :
    landuseType (normTag m q) = landuseType (m q) := by
  unfold normTag landuseType
  cases m q with
  | none => rfl
  | some s => by_cases h : s.isEmpty <;> simp [h]

set_option maxHeartbeats 2000000 in
theorem gpt_norm (m : Tags) : get_place_type (normTag m) = get_place_type m := by
  unfold get_place_type
  simp only [optIn_enum_norm, truthy_norm, buildingType_norm, landuseType_norm]
  split_ifs with h1 h2 h3 h4 h5 h6 h7 h8 h9 h10
  · cases hm : m "place" with
    | none =>
      rw [hm] at h1
      exact absurd h1 (by simp [optIn])
    | some s =>
      have hc : enumPlaces.contains s = true := by
        rw [hm] at h1
        simpa [optIn] using h1
      have hv : normTag m "place" = m "place" :=
        val_norm m "place" (by rw [hm]; simp [truthy, mem_enumPlaces_not_empty s hc])
      rw [hv, hm]
  · exact val_norm m "amenity" h2
  · rw [val_norm m "shop" h3]
  · exact val_norm m "tourism" h4
  · rfl
  · exact val_norm m "leisure" h6
  · rw [val_norm m "office" h7]
  · exact val_norm m "aeroway" h8
  · exact val_norm m "railway" h9
  · rfl
  · rfl

theorem find_first_congr {α : Type} (p q : α → Bool) (l : List α)
    (h : ∀ x ∈ l, p x = q x) : l.find? p = l.find? q := by
  induction l with
  | nil => rfl
  | cons x xs ih =>
    simp only [List.find?]
    rw [h x (by simp)]
    cases hq : q x
    · exact ih (fun y hy => h y (by simp [hy]))
    · rfl

theorem beq_some_norm (m : Tags) (k v : String) (hv : v.isEmpty = false) :
    (normTag m k == some v) = (m k == some v) := by
  unfold normTag
  cases m k with
  | none => rfl
  | some s =>
    by_cases h : s.isEmpty
    · rw [String.isEmpty_iff] at h
      subst h
      have hne : v ≠ "" := by
        intro hv2
        rw [hv2] at hv
        exact absurd hv (by decide)
      simp [Ne.symm hne]
    · simp [h]

theorem table_vals_not_empty : ∀ x ∈ POI_TAG_TO_CATEGORY, x.1.2.isEmpty = false := by
  decide

theorem poiCat_norm (m : Tags) : poiCategory (normTag m) = poiCategory m := by
  unfold poiCategory
  rw [find_first_congr _ _ POI_TAG_TO_CATEGORY
    (fun x hx => beq_some_norm m x.1.1 x.1.2 (table_vals_not_empty x hx))]

theorem norm_set_empty_eq_del (m : Tags) (k : String) :
    normTag (setTag m k "") = normTag (delTag m k) := by
  funext q
  unfold normTag setTag delTag
  by_cases h : q = k
  · simp [h]
    decide
  · simp [h]

theorem collectLocs_ok (nodes : List (Except String (Option (ℚ × ℚ))))
    (h : ∀ x ∈ nodes, ∃ r, x = Except.ok r) :
    collectLocs nodes = Except.ok (validLocs nodes) := by
  induction nodes with
  | nil => rfl
  | cons x xs ih =>
    obtain ⟨r, hr⟩ := h x (by simp)
    subst hr
    have ih2 := ih (fun y hy => h y (by simp [hy]))
    cases r with
    | none => simp [collectLocs, validLocs, ih2, List.filterMap_cons]
    | some c => simp [collectLocs, validLocs, ih2, List.filterMap_cons]

theorem streetParts_eq (name street hn : Option String) :
    streetParts name street hn =
      (if truthy street && truthy hn then [hn.getD "" ++ " " ++ street.getD ""]
       else if truthy street && !truthy name then [street.getD ""]
       else []) := by
  unfold streetParts
  cases hs : truthy street <;> cases hh : truthy hn <;> cases hnm : truthy name <;> simp

/-- Claim C1 counterexample: with a name, a street and a housenumber all
present, the composer still appends the `"<housenumber> <street>"`
component after the name, whereas the claim says no street component
appears when a name is present (the claimed composition yields just the
name here). -/
theorem claim_C1_counterexample :
    build_display_name "Region" tC1 (some "NameX") = "NameX, 10 Main St" ∧
    claimDisplayC1 tC1 (some "NameX") = "NameX" ∧
    ("NameX, 10 Main St" : String) ≠ "NameX" :=
  ⟨rfl, rfl, by decide⟩

/-- Claim C1 (amended): the display name is the comma-join of the non-empty
components in the fixed order name, street, city, state, country, postcode,
where the street component `"<housenumber> <street>"` is included whenever
both street and housenumber are truthy — even when a name is present — and
the bare street only when the name is absent; when every component is empty
the caller-supplied region label is returned. -/
theorem claim_C1_amended (region : String) (tags : Tags) (name : Option String) :
    build_display_name region tags name = displaySpecAmended region tags name := by
  simp only [build_display_name, displaySpecAmended, streetParts_eq]

/-- Claim C2 evaluation at the failing input: with `addr:street` present but
`name` and `addr:housenumber` both absent, the emitted Place name is
`"None Main St"` (Python formats the absent housenumber `None` into the
f-string), not the street alone as the claim states. -/
theorem claim_C2_code_eval :
    (extract_place "Virginia" true 7 tC2 0 0).map Place.name = some "None Main St" := by
  decide

/-- Claim C3 counterexample: the node handler has no exception guard, so a
per-node fault (here: a faulting tag accessor at a valid location)
propagates out of `node` instead of being caught. -/
theorem claim_C3_counterexample :
    nodeStep st0 nBadC3 = Except.error "malformed tags" :=
  rfl

/-- Claim C3 (amended): the way handler wraps its whole body in a
catch-all, so any per-way fault is swallowed, the way is skipped and the
handler state is unchanged; only the node handler lacks such a guard. -/
theorem claim_C3_amended (st : HState) (w : WayIn) (f : String)
    (h : wayBody st w = Except.error f) : wayStep st w = st := by
  unfold wayStep
  rw [h]

theorem claim_C3_witness :
    wayBody st0 wBadC3 = Except.error "bad ref" ∧ wayStep st0 wBadC3 = st0 :=
  ⟨rfl, claim_C3_amended st0 wBadC3 "bad ref" rfl⟩

/-- Claim C4 counterexample: with street and housenumber present and
`building` present with the empty value, the code classifies the mapping
as `address`, not `building_` followed by the (empty) value as the claim
requires for any non-`yes` value. -/
theorem claim_C4_counterexample :
    get_place_type tC4 = some "address" ∧
    get_place_type tC4 ≠ some ("building_" ++ "") :=
  ⟨rfl, by decide⟩

/-- Claim C4 (amended): when rules 1-4 do not match and both `addr:street`
and `addr:housenumber` are truthy, `building=yes` gives exactly `building`,
`building` present with a non-empty value other than `yes` gives
`building_` followed by that value, and `building` absent or present with
the empty value gives `address`. -/
theorem claim_C4_amended (m : Tags)
    (h1 : optIn (m "place") enumPlaces = false)
    (h2 : truthy (m "amenity") = false)
    (h3 : truthy (m "shop") = false)
    (h4 : truthy (m "tourism") = false)
    (h5 : truthy (m "addr:street") = true)
    (h6 : truthy (m "addr:housenumber") = true) :
    (m "building" = some "yes" → get_place_type m = some "building") ∧
    (∀ v, m "building" = some v → v ≠ "yes" → v ≠ "" →
      get_place_type m = some ("building_" ++ v)) ∧
    ((m "building" = none ∨ m "building" = some "") →
      get_place_type m = some "address") := by
  unfold get_place_type
  simp only [h1, h2, h3, h4, h5, h6, Bool.false_eq_true, if_false, Bool.and_self, if_true]
  refine ⟨?_, ?_, ?_⟩
  · intro hb
    simp [buildingType, hb, show ("yes").isEmpty = false from rfl]
  · intro v hb hv1 hv2
    have hvE : v.isEmpty = false := by
      cases hE : v.isEmpty
      · rfl
      · exact absurd ((String.isEmpty_iff v).mp hE) hv2
    simp [buildingType, hb, hvE, hv1]
  · rintro (hb | hb) <;>
      simp [buildingType, hb, show ("").isEmpty = true from rfl]

theorem claim_C4_witness : get_place_type tC4w = some "building" :=
  (claim_C4_amended tC4w rfl rfl rfl rfl rfl rfl).1 rfl

/-- Claim C5: a tag mapping lacking both the `name` tag and the
`addr:street` tag never yields a Place, whatever the other tags, the
resolved place type or the coordinate. -/
theorem claim_C5 (region : String) (isNode : Bool) (i : Int) (m : Tags) (lat lon : ℚ)
    (h1 : m "name" = none) (h2 : m "addr:street" = none) :
    extract_place region isNode i m lat lon = none := by
  unfold extract_place
  simp [h1, h2, truthy]

theorem claim_C5_witness : extract_place "Virginia" true 7 tC5w 0 0 = none :=
  claim_C5 "Virginia" true 7 tC5w 0 0 rfl rfl

/-- Claim C6: POI category resolution is a pure function of the tag
mapping: any mapping with `amenity=pharmacy` resolves to `PHARMACY`
(whatever the other tags), and a mapping matching no Category Table pair
yields no POI record at all. -/
theorem claim_C6 (m : Tags) :
    (m "amenity" = some "pharmacy" → poiCategory m = some "PHARMACY") ∧
    ((∀ p ∈ POI_TAG_TO_CATEGORY, m p.1.1 ≠ some p.1.2) →
      ∀ (isNode : Bool) (i : Int) (lat lon : ℚ), extract_poi isNode i m lat lon = none) := by
  constructor
  · intro h
    unfold poiCategory POI_TAG_TO_CATEGORY POI_CATEGORIES
    simp [List.find?, h]
  · intro h isNode i lat lon
    have hn : poiCategory m = none := by
      unfold poiCategory
      rw [List.find?_eq_none.mpr]
      · rfl
      · intro x hx
        simp only [beq_iff_eq]
        exact h x hx
    unfold extract_poi
    rw [hn]

theorem claim_C6_witness :
    poiCategory tC6a = some "PHARMACY" ∧ extract_poi true 5 tC6b 0 0 = none :=
  ⟨(claim_C6 tC6a).1 rfl, (claim_C6 tC6b).2 (by decide) true 5 0 0⟩

/-- Claim C7: for a fault-free way, the resolved coordinate is the
arithmetic mean of the latitudes and of the longitudes over exactly the
vertices with a valid location, and a way with zero valid vertices
produces no Place and no POI record (the handler state is unchanged). -/
theorem claim_C7 (st : HState) (w : WayIn) (t : Tags)
    (hok : ∀ x ∈ w.nodes, ∃ r, x = Except.ok r)
    (ht : w.tags = Except.ok t) :
    (validLocs w.nodes = [] → wayStep st w = st) ∧
    (validLocs w.nodes ≠ [] →
      wayStep st w = processWayAt st w.osm_id t
        (((validLocs w.nodes).map Prod.fst).sum / ((validLocs w.nodes).length : ℚ))
        (((validLocs w.nodes).map Prod.snd).sum / ((validLocs w.nodes).length : ℚ))) := by
  have hc := collectLocs_ok w.nodes hok
  constructor
  · intro hempty
    unfold wayStep wayBody
    rw [hc, hempty]
    simp
  · intro hne
    unfold wayStep wayBody
    rw [hc, ht]
    have hE : (validLocs w.nodes).isEmpty = false := List.isEmpty_eq_false.mpr hne
    simp [hE]

theorem claim_C7_witness :
    wayStep st0 wEmptyC7 = st0 ∧
    wayStep st0 wGoodC7 = processWayAt st0 wGoodC7.osm_id tC7
      (((validLocs wGoodC7.nodes).map Prod.fst).sum / ((validLocs wGoodC7.nodes).length : ℚ))
      (((validLocs wGoodC7.nodes).map Prod.snd).sum / ((validLocs wGoodC7.nodes).length : ℚ)) := by
  constructor
  · refine (claim_C7 st0 wEmptyC7 tC7 ?_ rfl).1 rfl
    intro x hx
    simp only [wEmptyC7] at hx
    simp at hx
    exact ⟨none, hx⟩
  · refine (claim_C7 st0 wGoodC7 tC7 ?_ rfl).2 (by decide)
    intro x hx
    simp only [wGoodC7] at hx
    simp at hx
    rcases hx with h | h | h <;> exact ⟨_, h⟩

/-- Claim C8: for every batch — the empty one included — the built store
carries a metadata record with `place_count` equal to the number of Place
rows, `poi_count` equal to the number of POI rows, and `schema_version`
equal to 2. -/
theorem claim_C8 (places : List Place) (pois : List Poi) (region created : String) :
    metaValue (create_database places pois region created) "place_count" =
      some (toString places.length) ∧
    metaValue (create_database places pois region created) "poi_count" =
      some (toString pois.length) ∧
    metaValue (create_database places pois region created) "schema_version" = some "2" :=
  ⟨rfl, rfl, rfl⟩

/-- Claim C9: a tag present with the empty-string value behaves exactly
like an absent tag for both place-type resolution and POI-category
resolution. -/
theorem claim_C9 (m : Tags) (k : String) :
    get_place_type (setTag m k "") = get_place_type (delTag m k) ∧
    poiCategory (setTag m k "") = poiCategory (delTag m k) := by
  constructor
  · calc get_place_type (setTag m k "")
        = get_place_type (normTag (setTag m k "")) := (gpt_norm _).symm
      _ = get_place_type (normTag (delTag m k)) := by rw [norm_set_empty_eq_del]
      _ = get_place_type (delTag m k) := gpt_norm _
  · calc poiCategory (setTag m k "")
        = poiCategory (normTag (setTag m k "")) := (poiCat_norm _).symm
      _ = poiCategory (normTag (delTag m k)) := by rw [norm_set_empty_eq_del]
      _ = poiCategory (delTag m k) := poiCat_norm _

/-- Claim C10: the state field of an emitted Place is the `addr:state`
value verbatim whenever that tag is present (even with an empty value),
and the region label of the handler otherwise. -/
theorem claim_C10 (region : String) (isNode : Bool) (i : Int) (m : Tags)
    (lat lon : ℚ) (p : Place)
    (h : extract_place region isNode i m lat lon = some p) :
    p.state = (m "addr:state").getD region := by
  simp only [extract_place] at h
  split at h
  · cases h
  · split at h
    · cases h
    · split at h
      · cases h
      · cases h
        rfl

theorem claim_C10_witness : pC10.state = "VA" :=
  (claim_C10 "Region" true 1 tC10 0 0 pC10 rfl).trans rfl

end BuildStateDB
